import Mathlib

/-!
# Translation service: orchestration and caching pipeline

Shallow embedding of the translation request pipeline of
`src/translation-service/main.py` (hotel-app):

* `TranslationRequest` / `TranslationResponse` mirror the pydantic models;
* `LANG_MAPPING`, `MODEL_NAME` mirror the class constants;
* `getCacheKey` mirrors `TranslationService._get_cache_key` (a `trans:`-prefixed
  SHA-256 hex digest of `f"{text}:{source}:{target}:{domain}"`), over an
  executable SHA-256 on byte lists (`Nat` arithmetic mod 2^32, modelling the
  semantics of Python's `hashlib.sha256(...).hexdigest()`);
* `translate` mirrors `TranslationService.translate`, with the Redis cache as an
  association list inside an explicit `ServiceState` and the external inference
  backend (tokenize / `model.generate` / decode, §6 of the spec) as a function
  parameter; call counters instrument the observable side effects
  (key derivations, cache reads/writes, backend invocations).  TTL is not
  modelled (the embedding has no clock); expiry never matters below.
* `translate_batch` mirrors the `/translate/batch` endpoint body.
-/

/-! ## SHA-256 (semantics of `hashlib.sha256`), bytes as `Nat` -/

/-- Truncate to a 32-bit word. -/
def w32 (n : Nat) : Nat := n % 4294967296

/-- Rotate a 32-bit word right by `n` bits. -/
def rotr (n x : Nat) : Nat := w32 ((x >>> n) ||| (x <<< (32 - n)))

def shaCh (x y z : Nat) : Nat := (x &&& y) ^^^ ((x ^^^ 4294967295) &&& z)

def shaMaj (x y z : Nat) : Nat := (x &&& y) ^^^ (x &&& z) ^^^ (y &&& z)

def bigSigma0 (x : Nat) : Nat := rotr 2 x ^^^ rotr 13 x ^^^ rotr 22 x

def bigSigma1 (x : Nat) : Nat := rotr 6 x ^^^ rotr 11 x ^^^ rotr 25 x

def smallSigma0 (x : Nat) : Nat := rotr 7 x ^^^ rotr 18 x ^^^ (x >>> 3)

def smallSigma1 (x : Nat) : Nat := rotr 17 x ^^^ rotr 19 x ^^^ (x >>> 10)

/-- The 64 SHA-256 round constants. -/
def SHA_K : Array Nat := #[
  1116352408, 1899447441, 3049323471, 3921009573,
  961987163, 1508970993, 2453635748, 2870763221,
  3624381080, 310598401, 607225278, 1426881987,
  1925078388, 2162078206, 2614888103, 3248222580,
  3835390401, 4022224774, 264347078, 604807628,
  770255983, 1249150122, 1555081692, 1996064986,
  2554220882, 2821834349, 2952996808, 3210313671,
  3336571891, 3584528711, 113926993, 338241895,
  666307205, 773529912, 1294757372, 1396182291,
  1695183700, 1986661051, 2177026350, 2456956037,
  2730485921, 2820302411, 3259730800, 3345764771,
  3516065817, 3600352804, 4094571909, 275423344,
  430227734, 506948616, 659060556, 883997877,
  958139571, 1322822218, 1537002063, 1747873779,
  1955562222, 2024104815, 2227730452, 2361852424,
  2428436474, 2756734187, 3204031479, 3329325298]

/-- Working state: eight 32-bit hash words. -/
structure Hash8 where
  a : Nat
  b : Nat
  c : Nat
  d : Nat
  e : Nat
  f : Nat
  g : Nat
  h : Nat
deriving DecidableEq, Repr

/-- SHA-256 initial hash value. -/
def sha256init : Hash8 :=
  ⟨1779033703, 3144134277, 1013904242, 2773480762,
   1359893119, 2600822924, 528734635, 1541459225⟩

/-- One SHA-256 compression round. -/
def sha256round (st : Hash8) (k w : Nat) : Hash8 :=
  let t1 := w32 (st.h + bigSigma1 st.e + shaCh st.e st.f st.g + k + w)
  let t2 := w32 (bigSigma0 st.a + shaMaj st.a st.b st.c)
  ⟨w32 (t1 + t2), st.a, st.b, st.c, w32 (st.d + t1), st.e, st.f, st.g⟩

/-- Message schedule: 16 big-endian words from a 64-byte block, extended to 64. -/
def messageSchedule (block : List Nat) : Array Nat :=
  let ws0 : Array Nat := (Array.range 16).map fun i =>
    w32 ((block.getD (4 * i) 0) <<< 24 + (block.getD (4 * i + 1) 0) <<< 16 +
         (block.getD (4 * i + 2) 0) <<< 8 + block.getD (4 * i + 3) 0)
  (List.range 48).foldl (fun ws t =>
    ws.push (w32 (smallSigma1 (ws.getD (t + 14) 0) + ws.getD (t + 9) 0 +
                  smallSigma0 (ws.getD (t + 1) 0) + ws.getD t 0))) ws0

/-- Process one 64-byte block. -/
def sha256block (st : Hash8) (block : List Nat) : Hash8 :=
  let ws := messageSchedule block
  let c := (List.range 64).foldl
    (fun s t => sha256round s (SHA_K.getD t 0) (ws.getD t 0)) st
  ⟨w32 (st.a + c.a), w32 (st.b + c.b), w32 (st.c + c.c), w32 (st.d + c.d),
   w32 (st.e + c.e), w32 (st.f + c.f), w32 (st.g + c.g), w32 (st.h + c.h)⟩

/-- The 8-byte big-endian encoding of `n` (the length field of the padding). -/
def beBytes8 (n : Nat) : List Nat :=
  (List.range 8).map fun i => (n >>> (8 * (7 - i))) % 256

/-- SHA-256 padding: `0x80`, zeros to 56 mod 64, then the 64-bit bit length. -/
def sha256pad (msg : List Nat) : List Nat :=
  let zeros := (64 + 56 - (msg.length + 1) % 64) % 64
  msg ++ 0x80 :: List.replicate zeros 0 ++ beBytes8 (8 * msg.length)

/-- Split a byte list into 64-byte chunks; the fuel bounds the recursion depth
(structural recursion so that concrete digests reduce inside the kernel).
`fuel ≥ l.length` suffices, since every step consumes at least one byte. -/
def chunksGo : Nat → List Nat → List (List Nat)
  | _, [] => []
  | 0, _ :: _ => []
  | fuel + 1, x :: xs => (x :: xs).take 64 :: chunksGo fuel ((x :: xs).drop 64)

/-- Split a byte list into 64-byte chunks. -/
def chunks64 (l : List Nat) : List (List Nat) := chunksGo l.length l

/-- The SHA-256 digest of a byte list, as eight 32-bit words. -/
def sha256words (msg : List Nat) : Hash8 :=
  (chunks64 (sha256pad msg)).foldl sha256block sha256init

/-- The lowercase hex digit for a nibble (`0`–`9` then `a`–`f`). -/
def hexChar (n : Nat) : Char :=
  Char.ofNat (if n < 10 then 48 + n else 87 + n)

/-- A 32-bit word as exactly 8 lowercase hex characters. -/
def word8hex (w : Nat) : String :=
  ⟨(List.range 8).map fun i => hexChar ((w >>> (4 * (7 - i))) % 16)⟩

/-- `hashlib.sha256(msg).hexdigest()`: 64 lowercase hex characters. -/
def sha256hex (msg : List Nat) : String :=
  let d := sha256words msg
  word8hex d.a ++ word8hex d.b ++ word8hex d.c ++ word8hex d.d ++
  word8hex d.e ++ word8hex d.f ++ word8hex d.g ++ word8hex d.h

/-- UTF-8 encoding of a character (semantics of Python `str.encode()`). -/
def utf8Bytes (c : Char) : List Nat :=
  let n := c.toNat
  if n < 0x80 then [n]
  else if n < 0x800 then [0xc0 ||| (n >>> 6), 0x80 ||| (n &&& 0x3f)]
  else if n < 0x10000 then
    [0xe0 ||| (n >>> 12), 0x80 ||| ((n >>> 6) &&& 0x3f), 0x80 ||| (n &&& 0x3f)]
  else
    [0xf0 ||| (n >>> 18), 0x80 ||| ((n >>> 12) &&& 0x3f),
     0x80 ||| ((n >>> 6) &&& 0x3f), 0x80 ||| (n &&& 0x3f)]

/-- The UTF-8 bytes of a string (Python `s.encode()`). -/
def strBytes (s : String) : List Nat := s.data.flatMap utf8Bytes

/-! ## Data model (`TranslationRequest`, `TranslationResponse`) -/

/-- `TranslationRequest` (pydantic model).  The schema constraints (`text`
non-empty and ≤ 5000 chars, language codes matching `^[a-z]{2}$`,
`quality_preference` in the `fast|balanced|accurate` enumeration) are enforced
by FastAPI before `translate` runs; they appear below as hypotheses where a
claim needs them. -/
structure TranslationRequest where
  text : String
  source_language : String
  target_language : String
  domain : String := "hotel_domain"
  quality_preference : String := "balanced"
  use_cache : Bool := true
deriving DecidableEq, Repr

/-- `TranslationResponse` (pydantic model).  `quality_score` is a `Rat`: the
only scores the service produces (1.0, 0.85, 0.75, 0.0) are exact decimals;
they appear below as `1`, `mkRat 85 100`, `mkRat 75 100`, `0`. -/
structure TranslationResponse where
  translated_text : String
  source_language : String
  target_language : String
  quality_score : Rat
  translation_method : String
  model_version : String
  cached : Bool := false
deriving DecidableEq, Repr

/-- Exceptions escaping `TranslationService.translate`: FastAPI
`HTTPException(status, detail)`, and the `TypeError` Python raises for a
duplicate keyword argument (see `cacheHitResponse`). -/
inductive TransError where
  | httpException (status : Nat) (detail : String)
  | typeError (msg : String)
deriving DecidableEq, Repr

/-- `TranslationService.MODEL_NAME`. -/
def MODEL_NAME : String := "facebook/mbart-large-50-many-to-many-mmt"

/-- `TranslationService.LANG_MAPPING` (ISO 639-1 to mBART codes), as an
association list in the source's insertion order. -/
def LANG_MAPPING : List (String × String) :=
  [("en", "en_XX"), ("es", "es_XX"), ("fr", "fr_XX"), ("de", "de_DE"),
   ("zh", "zh_CN"), ("ja", "ja_XX"), ("ar", "ar_AR"), ("ru", "ru_RU"),
   ("pt", "pt_XX"), ("it", "it_IT"), ("ko", "ko_KR"), ("hi", "hi_IN"),
   ("tr", "tr_TR"), ("vi", "vi_VN"), ("th", "th_TH")]

/-! ## Cache key derivation (`TranslationService._get_cache_key`) -/

/-- The pre-hash encoding
`content = f"{req.text}:{req.source_language}:{req.target_language}:{req.domain}"`. -/
def cacheContent (text source target domain : String) : String :=
  text ++ ":" ++ source ++ ":" ++ target ++ ":" ++ domain

/-- `_get_cache_key`:
`f"trans:{hashlib.sha256(content.encode()).hexdigest()}"`. -/
def getCacheKey (req : TranslationRequest) : String :=
  "trans:" ++ sha256hex (strBytes
    (cacheContent req.text req.source_language req.target_language req.domain))

/-! ## Service state, backend, and `translate` -/

/-- The inference backend (spec §6): tokenizer + `model.generate` + decode,
invoked with the text, the resolved mBART source/target codes and the
`num_beams` parameter; it returns a translated text or raises (error message).
It is an external collaborator, so it is a parameter of the embedding. -/
def Backend : Type := String → String → String → Nat → Except String String

/-- Explicit service state: the Redis cache contents as an association list
(newest entry first; `setex` overwrites are modelled by prepending, and
`List.lookup` returns the newest binding), the `adapters_loaded` flag set at
startup, and ghost counters instrumenting the observable side effects. -/
structure ServiceState where
  cache : List (String × TranslationResponse)
  adapters_loaded : Bool
  keyDerivations : Nat := 0
  cacheGets : Nat := 0
  cachePuts : Nat := 0
  backendCalls : Nat := 0
deriving DecidableEq, Repr

/-- `num_beams = {"fast": 2, "balanced": 4, "accurate": 8}.get(preference, 4)`. -/
def numBeams (preference : String) : Nat :=
  if preference = "fast" then 2
  else if preference = "balanced" then 4
  else if preference = "accurate" then 8
  else 4

/-- The cache-hit return `TranslationResponse(**cached_result, cached=True)`.
The stored dict always contains the key `cached` — `_save_to_cache` stores
`response.model_dump()` with `cache_data['cached'] = True` — so the call site
passes the keyword `cached` twice and Python raises `TypeError` before
pydantic ever runs. -/
def cacheHitResponse (_cached_result : TranslationResponse) :
    Except TransError TranslationResponse :=
  Except.error (TransError.typeError
    "TranslationResponse() got multiple values for keyword argument 'cached'")

/-- The body of the `try:` block of `translate` from the backend call on:
resolve `num_beams` from the quality preference, invoke the backend, wrap a
backend failure as `HTTPException(500, f"Translation failed: {e}")`, and on
success assemble the response and (when `use_cache`) store a copy with
`cached = True` under `cache_key`.  (`cache_key` is the key derived during the
cache lookup; when `use_cache` is false it is never read, matching the source
where the variable is then unbound.) -/
def doInference (backend : Backend) (request : TranslationRequest)
    (src_lang tgt_lang cache_key : String) (s : ServiceState) :
    Except TransError TranslationResponse × ServiceState :=
  let num_beams := numBeams request.quality_preference
  let s1 := { s with backendCalls := s.backendCalls + 1 }
  match backend request.text src_lang tgt_lang num_beams with
  | Except.error e =>
      (Except.error (TransError.httpException 500 ("Translation failed: " ++ e)), s1)
  | Except.ok translated_text =>
      let response : TranslationResponse :=
        { translated_text := translated_text
          source_language := request.source_language
          target_language := request.target_language
          quality_score := if s1.adapters_loaded then mkRat 85 100 else mkRat 75 100
          translation_method := if s1.adapters_loaded then "adapter_fusion" else "mbart"
          model_version := MODEL_NAME
          cached := false }
      let s2 :=
        if request.use_cache then
          { s1 with
            cache := (cache_key, { response with cached := true }) :: s1.cache
            cachePuts := s1.cachePuts + 1 }
        else s1
      (Except.ok response, s2)

/-- `TranslationService.translate`.  In order: language validation (source
checked first), the passthrough shortcut, the conditional cache lookup, then
inference + conditional cache write.  The mBART codes are resolved by the same
`LANG_MAPPING` lookups the source performs (validation uses `not in`, the
inference block indexes the dict; binding the lookup result once is
equivalent). -/
def TranslationService.translate (backend : Backend) (request : TranslationRequest)
    (s : ServiceState) : Except TransError TranslationResponse × ServiceState :=
  match LANG_MAPPING.lookup request.source_language with
  | none =>
      (Except.error (TransError.httpException 400
        ("Unsupported source language: " ++ request.source_language)), s)
  | some src_lang =>
    match LANG_MAPPING.lookup request.target_language with
    | none =>
        (Except.error (TransError.httpException 400
          ("Unsupported target language: " ++ request.target_language)), s)
    | some tgt_lang =>
      if request.source_language = request.target_language then
        (Except.ok
          { translated_text := request.text
            source_language := request.source_language
            target_language := request.target_language
            quality_score := 1
            translation_method := "passthrough"
            model_version := MODEL_NAME
            cached := false }, s)
      else if request.use_cache then
        let cache_key := getCacheKey request
        let s1 := { s with
          keyDerivations := s.keyDerivations + 1
          cacheGets := s.cacheGets + 1 }
        match s1.cache.lookup cache_key with
        | some cached_result => (cacheHitResponse cached_result, s1)
        | none => doInference backend request src_lang tgt_lang cache_key s1
      else
        doInference backend request src_lang tgt_lang "" s

/-! ## Batch endpoint (`translate_batch`) -/

/-- The degraded placeholder appended by the `except` branch of
`translate_batch`: original text echoed, zero quality, method `"error"`,
empty `model_version`. -/
def errorPlaceholder (req : TranslationRequest) : TranslationResponse :=
  { translated_text := req.text
    source_language := req.source_language
    target_language := req.target_language
    quality_score := 0
    translation_method := "error"
    model_version := ""
    cached := false }

/-- The `for req in batch.requests[:batch.max_parallel]` loop: each item is
translated with the service state threaded through; a raising item is caught
and replaced by `errorPlaceholder`. -/
def batchGo (backend : Backend) : List TranslationRequest → ServiceState →
    List TranslationResponse × ServiceState
  | [], s => ([], s)
  | req :: rest, s =>
      let out := TranslationService.translate backend req s
      let result := match out.1 with
        | Except.ok result => result
        | Except.error _ => errorPlaceholder req
      let tl := batchGo backend rest out.2
      (result :: tl.1, tl.2)

/-- The `/translate/batch` endpoint body: process the first `max_parallel`
requests in order, isolating per-item failures.  Total by construction — the
endpoint never raises. -/
def translate_batch (backend : Backend) (requests : List TranslationRequest)
    (max_parallel : Nat) (s : ServiceState) :
    List TranslationResponse × ServiceState :=
  batchGo backend (requests.take max_parallel) s

/-! ## Concrete fixtures for witnesses and concrete runs -/

/-- A backend that raises on the text `"BOOM"` and otherwise translates by
tagging the text. -/
def testBackend : Backend := fun text _ _ _ =>
  if text = "BOOM" then Except.error "GPU exploded"
  else Except.ok ("T:" ++ text)

/-- A backend that always answers `"Hola"`. -/
def okBackend : Backend := fun _ _ _ _ => Except.ok "Hola"

/-- The cold-start service state: empty cache, adapters not loaded. -/
def s0 : ServiceState := ⟨[], false, 0, 0, 0, 0⟩

def reqA : TranslationRequest := ⟨"One", "en", "es", "hotel_domain", "balanced", false⟩

def reqBoom : TranslationRequest := ⟨"BOOM", "en", "es", "hotel_domain", "balanced", false⟩

def reqC : TranslationRequest := ⟨"Three", "en", "es", "hotel_domain", "balanced", false⟩

/-- The concrete request of the cache-idempotence scenario (§8 of the spec). -/
def reqHello : TranslationRequest := ⟨"Hello", "en", "es", "hotel_domain", "fast", true⟩

/-! ## Helper lemmas -/

/-- A successful `doInference` result echoes the request's language codes,
carries `MODEL_NAME`, and its method tag is `adapter_fusion` or `mbart`,
never `"error"`. -/
theorem doInference_ok_fields (backend : Backend) (req : TranslationRequest)
    (src_lang tgt_lang cache_key : String) (s : ServiceState)
    (r : TranslationResponse)
    (h : (doInference backend req src_lang tgt_lang cache_key s).1 = Except.ok r) :
    r.source_language = req.source_language ∧
    r.target_language = req.target_language ∧
    r.model_version = MODEL_NAME ∧
    r.translation_method ≠ "error" := by
  cases hb : backend req.text src_lang tgt_lang (numBeams req.quality_preference) with
  | error e => simp [doInference, hb] at h
  | ok t =>
      simp only [doInference, hb] at h
      cases h
      refine ⟨rfl, rfl, rfl, by split <;> simp⟩

/-- Any successful `translate` result echoes the request's language codes,
carries `MODEL_NAME` as its model version, and never uses the method tag
`"error"` (successes are passthrough / mbart / adapter_fusion; the cache-hit
branch raises, so it never yields a success). -/
theorem translate_ok_fields (backend : Backend) (req : TranslationRequest)
    (s : ServiceState) (r : TranslationResponse)
    (h : (TranslationService.translate backend req s).1 = Except.ok r) :
    r.source_language = req.source_language ∧
    r.target_language = req.target_language ∧
    r.model_version = MODEL_NAME ∧
    r.translation_method ≠ "error" := by
  unfold TranslationService.translate at h
  split at h
  · simp at h
  · split at h
    · simp at h
    · split at h
      · simp only [Prod.fst] at h
        cases h
        refine ⟨rfl, rfl, rfl, by simp⟩
      · split at h
        · dsimp only [] at h
          split at h
          · simp [cacheHitResponse] at h
          · exact doInference_ok_fields _ _ _ _ _ _ _ h
        · exact doInference_ok_fields _ _ _ _ _ _ _ h

/-! ## Claim theorems -/

/-- C2: when source and target language codes are both supported and equal,
`translate` returns the passthrough result — input text unchanged,
quality_score 1.0, method `"passthrough"`, `MODEL_NAME`, `cached = false` —
and returns the service state untouched: no cache-key derivation, no cache
get or put, no backend call (all instrumentation counters and the cache are
exactly those of the input state). -/
theorem passthrough_short_circuit (backend : Backend) (req : TranslationRequest)
    (s : ServiceState)
    (hsup : (LANG_MAPPING.lookup req.source_language).isSome)
    (heq : req.source_language = req.target_language) :
    TranslationService.translate backend req s =
      (Except.ok
        { translated_text := req.text
          source_language := req.source_language
          target_language := req.target_language
          quality_score := 1
          translation_method := "passthrough"
          model_version := MODEL_NAME
          cached := false }, s) := by
  obtain ⟨v, hv⟩ := Option.isSome_iff_exists.mp hsup
  simp [TranslationService.translate, ← heq, hv]

/-- Witness for C2: a concrete en→en request takes the passthrough path. -/
theorem passthrough_short_circuit_witness :
    (LANG_MAPPING.lookup ("en" : String)).isSome = true ∧
    TranslationService.translate (fun _ _ _ _ => Except.ok "X")
        ⟨"Good morning", "en", "en", "hotel_domain", "balanced", true⟩
        ⟨[], false, 0, 0, 0, 0⟩ =
      (Except.ok ⟨"Good morning", "en", "en", 1, "passthrough", MODEL_NAME, false⟩,
        ⟨[], false, 0, 0, 0, 0⟩) :=
  ⟨by decide,
   passthrough_short_circuit (fun _ _ _ _ => Except.ok "X")
     ⟨"Good morning", "en", "en", "hotel_domain", "balanced", true⟩
     ⟨[], false, 0, 0, 0, 0⟩ (by decide) rfl⟩

/-- C5: the cache key is a pure function of exactly
(text, source_language, target_language, domain): any two requests agreeing
on those four fields — whatever their `quality_preference`, `use_cache`, or
anything else — derive the identical key; taking the two requests equal gives
determinism of repeated derivation. -/
theorem cache_key_content_addressed (r1 r2 : TranslationRequest)
    (ht : r1.text = r2.text)
    (hs : r1.source_language = r2.source_language)
    (hT : r1.target_language = r2.target_language)
    (hd : r1.domain = r2.domain) :
    getCacheKey r1 = getCacheKey r2 := by
  simp [getCacheKey, cacheContent, ht, hs, hT, hd]

/-- Witness for C5: varying only `quality_preference` and `use_cache` leaves
the derived key unchanged. -/
theorem cache_key_content_addressed_witness :
    ("Hello" : String) = "Hello" ∧ ("en" : String) = "en" ∧
    ("es" : String) = "es" ∧ ("hotel_domain" : String) = "hotel_domain" ∧
    getCacheKey ⟨"Hello", "en", "es", "hotel_domain", "fast", true⟩ =
      getCacheKey ⟨"Hello", "en", "es", "hotel_domain", "accurate", false⟩ :=
  ⟨rfl, rfl, rfl, rfl,
   cache_key_content_addressed
     ⟨"Hello", "en", "es", "hotel_domain", "fast", true⟩
     ⟨"Hello", "en", "es", "hotel_domain", "accurate", false⟩ rfl rfl rfl rfl⟩

/-- C7: a request whose source code (checked first) or target code is absent
from `LANG_MAPPING` fails with the 400 `Unsupported ... language` error
carrying the offending code, and the service state is returned untouched —
so no cache-key derivation, cache read/write, or backend call happened. -/
theorem unsupported_language_fail_fast (backend : Backend)
    (req : TranslationRequest) (s : ServiceState) :
    (LANG_MAPPING.lookup req.source_language = none →
      TranslationService.translate backend req s =
        (Except.error (TransError.httpException 400
          ("Unsupported source language: " ++ req.source_language)), s)) ∧
    ((LANG_MAPPING.lookup req.source_language).isSome →
      LANG_MAPPING.lookup req.target_language = none →
      TranslationService.translate backend req s =
        (Except.error (TransError.httpException 400
          ("Unsupported target language: " ++ req.target_language)), s)) := by
  constructor
  · intro h
    simp [TranslationService.translate, h]
  · intro h1 h2
    obtain ⟨v, hv⟩ := Option.isSome_iff_exists.mp h1
    simp [TranslationService.translate, hv, h2]

/-- Witness for C7: `source_language = "xx"` fails with the source error;
`"en" → "xx"` fails with the target error; both leave the state untouched. -/
theorem unsupported_language_fail_fast_witness :
    LANG_MAPPING.lookup ("xx" : String) = none ∧
    TranslationService.translate (fun _ _ _ _ => Except.ok "X")
        ⟨"Hi", "xx", "es", "hotel_domain", "balanced", true⟩
        ⟨[], false, 0, 0, 0, 0⟩ =
      (Except.error (TransError.httpException 400 "Unsupported source language: xx"),
        ⟨[], false, 0, 0, 0, 0⟩) ∧
    TranslationService.translate (fun _ _ _ _ => Except.ok "X")
        ⟨"Hi", "en", "xx", "hotel_domain", "balanced", true⟩
        ⟨[], false, 0, 0, 0, 0⟩ =
      (Except.error (TransError.httpException 400 "Unsupported target language: xx"),
        ⟨[], false, 0, 0, 0, 0⟩) :=
  ⟨by decide,
   (unsupported_language_fail_fast (fun _ _ _ _ => Except.ok "X")
     ⟨"Hi", "xx", "es", "hotel_domain", "balanced", true⟩
     ⟨[], false, 0, 0, 0, 0⟩).1 (by decide),
   (unsupported_language_fail_fast (fun _ _ _ _ => Except.ok "X")
     ⟨"Hi", "en", "xx", "hotel_domain", "balanced", true⟩
     ⟨[], false, 0, 0, 0, 0⟩).2 (by decide) (by decide)⟩

/-- C9: the quality policy maps `"fast"` to 2 beams, `"balanced"` to 4,
`"accurate"` to 8, and any value outside the enumeration falls back to the
balanced default 4 (total — it never fails). -/
theorem quality_policy_mapping :
    numBeams "fast" = 2 ∧ numBeams "balanced" = 4 ∧ numBeams "accurate" = 8 ∧
    ∀ p : String, p ≠ "fast" → p ≠ "balanced" → p ≠ "accurate" →
      numBeams p = 4 := by
  refine ⟨rfl, rfl, rfl, ?_⟩
  intro p h1 h2 h3
  simp [numBeams, h1, h2, h3]

/-- Witness for C9: the unrecognized preference `"turbo"` gets the balanced
default. -/
theorem quality_policy_mapping_witness :
    ("turbo" : String) ≠ "fast" ∧ ("turbo" : String) ≠ "balanced" ∧
    ("turbo" : String) ≠ "accurate" ∧ numBeams "turbo" = 4 :=
  ⟨by decide, by decide, by decide,
   quality_policy_mapping.2.2.2 "turbo" (by decide) (by decide) (by decide)⟩

/-! ## Cache-key encoding: separator analysis and digest shape -/

/-- `(":" : String).data = [':']`. -/
theorem colon_data : (":" : String).data = [':'] := rfl

/-- Splitting at a separator character is unambiguous when the part before it
avoids the separator. -/
theorem colon_append_inj : ∀ (a1 a2 r1 r2 : List Char), ':' ∉ a1 → ':' ∉ a2 →
    a1 ++ ':' :: r1 = a2 ++ ':' :: r2 → a1 = a2 ∧ r1 = r2 := by
  intro a1
  induction a1 with
  | nil =>
      intro a2 r1 r2 _ h2 h
      cases a2 with
      | nil => simpa using h
      | cons c t =>
          simp only [List.nil_append, List.cons_append, List.cons.injEq] at h
          exact absurd (h.1 ▸ List.mem_cons_self c t) h2
  | cons c t ih =>
      intro a2 r1 r2 h1 h2 h
      cases a2 with
      | nil =>
          simp only [List.nil_append, List.cons_append, List.cons.injEq] at h
          exact absurd (h.1 ▸ List.mem_cons_self c t) h1
      | cons c' t' =>
          simp only [List.cons_append, List.cons.injEq] at h
          have ht := ih t' r1 r2 (fun hm => h1 (List.mem_cons_of_mem c hm))
            (fun hm => h2 (List.mem_cons_of_mem c' hm)) h.2
          exact ⟨by rw [h.1, ht.1], ht.2⟩

/-- The character list underlying the pre-hash encoding. -/
theorem cacheContent_data (t s T d : String) :
    (cacheContent t s T d).data =
      t.data ++ ':' :: (s.data ++ ':' :: (T.data ++ ':' :: d.data)) := by
  simp [cacheContent, String.data_append, colon_data]

/-- A 32-bit word always prints as exactly 8 hex characters. -/
theorem word8hex_length (w : Nat) : (word8hex w).length = 8 := by
  simp [word8hex, String.length]

/-- Every SHA-256 hex digest has exactly 64 characters, whatever the input. -/
theorem sha256hex_length (msg : List Nat) : (sha256hex msg).length = 64 := by
  simp [sha256hex, String.length_append, word8hex_length]

/-- Counterexample for C6: the `":"` separators are ambiguous.  Two distinct
(text, source, target, domain) tuples — the colons here sit inside the free-form
`text` and `domain` fields, which the request schema does not restrict — feed
the identical pre-hash string to the digest. -/
theorem cache_key_separator_collision :
    cacheContent "a" "en" "es" "b:en:es:c" =
      cacheContent "a:en:es:b" "en" "es" "c" ∧
    (("a", "en", "es", "b:en:es:c") : String × String × String × String) ≠
      ("a:en:es:b", "en", "es", "c") :=
  ⟨rfl, by decide⟩

/-- C6 (amended): the four fields are joined with `":"` separators, which are
unambiguous only on colon-free fields: whenever none of the fields contains a
colon (language codes match `^[a-z]{2}$`, but `text` and `domain` are only
colon-free by convention), distinct tuples give distinct pre-hash encodings;
and every derived key is the fixed `"trans:"` namespace tag followed by the
SHA-256 hex digest of the encoding, whose length is always 64. -/
theorem cache_key_encoding_shape :
    (∀ t1 t2 s1 s2 T1 T2 d1 d2 : String,
      ':' ∉ t1.data → ':' ∉ t2.data → ':' ∉ s1.data → ':' ∉ s2.data →
      ':' ∉ T1.data → ':' ∉ T2.data → ':' ∉ d1.data → ':' ∉ d2.data →
      cacheContent t1 s1 T1 d1 = cacheContent t2 s2 T2 d2 →
      t1 = t2 ∧ s1 = s2 ∧ T1 = T2 ∧ d1 = d2) ∧
    (∀ req : TranslationRequest,
      getCacheKey req = "trans:" ++ sha256hex (strBytes (cacheContent
        req.text req.source_language req.target_language req.domain)) ∧
      (sha256hex (strBytes (cacheContent
        req.text req.source_language req.target_language req.domain))).length
        = 64) := by
  constructor
  · intro t1 t2 s1 s2 T1 T2 d1 d2 ht1 ht2 hs1 hs2 hT1 hT2 hd1 hd2 h
    have hd := congrArg String.data h
    rw [cacheContent_data, cacheContent_data] at hd
    obtain ⟨e1, hd⟩ := colon_append_inj _ _ _ _ ht1 ht2 hd
    obtain ⟨e2, hd⟩ := colon_append_inj _ _ _ _ hs1 hs2 hd
    obtain ⟨e3, e4⟩ := colon_append_inj _ _ _ _ hT1 hT2 hd
    exact ⟨String.ext e1, String.ext e2, String.ext e3, String.ext e4⟩
  · intro req
    exact ⟨rfl, sha256hex_length _⟩

/-- Witness for C6 (amended): applied to concrete colon-free fields and a
concrete request. -/
theorem cache_key_encoding_shape_witness :
    (':' ∉ ("Hello" : String).data) ∧ (':' ∉ ("en" : String).data) ∧
    (':' ∉ ("es" : String).data) ∧ (':' ∉ ("hotel_domain" : String).data) ∧
    (("Hello" : String) = "Hello" ∧ ("en" : String) = "en" ∧
      ("es" : String) = "es" ∧ ("hotel_domain" : String) = "hotel_domain") ∧
    (getCacheKey ⟨"Hello", "en", "es", "hotel_domain", "fast", true⟩ =
        "trans:" ++ sha256hex (strBytes (cacheContent "Hello" "en" "es" "hotel_domain")) ∧
      (sha256hex (strBytes (cacheContent "Hello" "en" "es" "hotel_domain"))).length = 64) :=
  ⟨by decide, by decide, by decide, by decide,
   cache_key_encoding_shape.1 "Hello" "Hello" "en" "en" "es" "es"
     "hotel_domain" "hotel_domain" (by decide) (by decide) (by decide)
     (by decide) (by decide) (by decide) (by decide) (by decide) rfl,
   cache_key_encoding_shape.2 ⟨"Hello", "en", "es", "hotel_domain", "fast", true⟩⟩

/-- C8: when a request reaches the inference step (both codes supported,
source ≠ target, and no cache hit) and the backend raises, `translate` fails
with the 500 `Translation failed: ...` error carrying the backend's original
message, and no cache write happens — the cache contents and the put counter
are unchanged. -/
theorem inference_failure_no_cache_write (backend : Backend)
    (req : TranslationRequest) (s : ServiceState) (src_lang tgt_lang msg : String)
    (hs : LANG_MAPPING.lookup req.source_language = some src_lang)
    (ht : LANG_MAPPING.lookup req.target_language = some tgt_lang)
    (hne : req.source_language ≠ req.target_language)
    (hmiss : req.use_cache = true → s.cache.lookup (getCacheKey req) = none)
    (hb : backend req.text src_lang tgt_lang (numBeams req.quality_preference)
      = Except.error msg) :
    (TranslationService.translate backend req s).1 =
      Except.error (TransError.httpException 500 ("Translation failed: " ++ msg)) ∧
    ((TranslationService.translate backend req s).2).cache = s.cache ∧
    ((TranslationService.translate backend req s).2).cachePuts = s.cachePuts := by
  cases hc : req.use_cache with
  | false => simp [TranslationService.translate, hs, ht, hne, hc, doInference, hb]
  | true => simp [TranslationService.translate, hs, ht, hne, hc, hmiss hc,
      doInference, hb]

/-- Witness for C8: a backend that raises `CUDA out of memory` on a cold
cache; nothing is cached and the caller sees the wrapped 500. -/
theorem inference_failure_no_cache_write_witness :
    LANG_MAPPING.lookup ("en" : String) = some "en_XX" ∧
    LANG_MAPPING.lookup ("es" : String) = some "es_XX" ∧
    ("en" : String) ≠ "es" ∧
    (([] : List (String × TranslationResponse)).lookup
      (getCacheKey ⟨"Hi", "en", "es", "hotel_domain", "balanced", true⟩) = none) ∧
    ((fun _ _ _ _ => Except.error "CUDA out of memory" : Backend)
      "Hi" "en_XX" "es_XX" (numBeams "balanced") = Except.error "CUDA out of memory") ∧
    (TranslationService.translate (fun _ _ _ _ => Except.error "CUDA out of memory")
        ⟨"Hi", "en", "es", "hotel_domain", "balanced", true⟩
        ⟨[], false, 0, 0, 0, 0⟩).1 =
      Except.error (TransError.httpException 500
        "Translation failed: CUDA out of memory") ∧
    ((TranslationService.translate (fun _ _ _ _ => Except.error "CUDA out of memory")
        ⟨"Hi", "en", "es", "hotel_domain", "balanced", true⟩
        ⟨[], false, 0, 0, 0, 0⟩).2).cache = [] ∧
    ((TranslationService.translate (fun _ _ _ _ => Except.error "CUDA out of memory")
        ⟨"Hi", "en", "es", "hotel_domain", "balanced", true⟩
        ⟨[], false, 0, 0, 0, 0⟩).2).cachePuts = 0 := by
  have h := inference_failure_no_cache_write
    (fun _ _ _ _ => Except.error "CUDA out of memory")
    ⟨"Hi", "en", "es", "hotel_domain", "balanced", true⟩
    ⟨[], false, 0, 0, 0, 0⟩ "en_XX" "es_XX" "CUDA out of memory"
    (by decide) (by decide) (by decide) (fun _ => rfl) rfl
  exact ⟨by decide, by decide, by decide, rfl, rfl, h.1, h.2.1, h.2.2⟩

/-! ## Batch lemmas -/

/-- `batchGo` yields one result per processed request. -/
theorem batchGo_length (backend : Backend) :
    ∀ (l : List TranslationRequest) (s : ServiceState),
      ((batchGo backend l s).1).length = l.length := by
  intro l
  induction l with
  | nil => intro s; rfl
  | cons req rest ih => intro s; simp [batchGo, ih]

/-- The i-th `batchGo` output comes from the i-th input request, translated in
the state threaded through the preceding items, with a raising item replaced
by its degraded placeholder. -/
theorem batchGo_getElem (backend : Backend) :
    ∀ (l : List TranslationRequest) (s : ServiceState) (i : Nat)
      (req : TranslationRequest), l[i]? = some req →
      ((batchGo backend l s).1)[i]? = some (
        match (TranslationService.translate backend req
            ((batchGo backend (l.take i) s).2)).1 with
        | Except.ok r => r
        | Except.error _ => errorPlaceholder req) := by
  intro l
  induction l with
  | nil => intro s i req h; simp at h
  | cons q rest ih =>
      intro s i req h
      cases i with
      | zero =>
          simp only [List.getElem?_cons_zero, Option.some.injEq] at h
          subst h
          simp [batchGo]
      | succ i =>
          simp only [List.getElem?_cons_succ] at h
          simp only [batchGo, List.take_succ_cons, List.getElem?_cons_succ]
          exact ih _ i req h

/-- C3: `translate_batch` never raises (it is a total function into result
lists); it returns one result per processed item in input order; the i-th
output is exactly what `translate` returns for the i-th input (threaded
through its predecessors' state) when that call succeeds, and the degraded
placeholder — original text echoed, quality 0, method `"error"`, not cached —
when that call raises; sibling items are untouched. -/
theorem translate_batch_isolation (backend : Backend)
    (reqs : List TranslationRequest) (cap : Nat) (s : ServiceState) :
    ((translate_batch backend reqs cap s).1).length = min cap reqs.length ∧
    (∀ (i : Nat) (req : TranslationRequest), (reqs.take cap)[i]? = some req →
      ((translate_batch backend reqs cap s).1)[i]? = some (
        match (TranslationService.translate backend req
            ((batchGo backend ((reqs.take cap).take i) s).2)).1 with
        | Except.ok r => r
        | Except.error _ => errorPlaceholder req)) ∧
    (∀ req : TranslationRequest, errorPlaceholder req =
      { translated_text := req.text
        source_language := req.source_language
        target_language := req.target_language
        quality_score := 0
        translation_method := "error"
        model_version := ""
        cached := false }) := by
  refine ⟨?_, ?_, ?_⟩
  · simp [translate_batch, batchGo_length, List.length_take]
  · intro i req h
    simpa [translate_batch] using batchGo_getElem backend (reqs.take cap) s i req h
  · intro req
    rfl

/-- Witness for C3: three requests where the second makes the backend raise —
three results, item 2 degraded (its own text, quality 0, method `"error"`),
items 1 and 3 translated normally. -/
theorem translate_batch_isolation_witness :
    (([reqA, reqBoom, reqC].take 10)[1]? = some reqBoom) ∧
    ((translate_batch testBackend [reqA, reqBoom, reqC] 10 s0).1).length = 3 ∧
    ((translate_batch testBackend [reqA, reqBoom, reqC] 10 s0).1)[1]? =
      some ⟨"BOOM", "en", "es", 0, "error", "", false⟩ ∧
    ((translate_batch testBackend [reqA, reqBoom, reqC] 10 s0).1)[0]? =
      some ⟨"T:One", "en", "es", mkRat 75 100, "mbart", MODEL_NAME, false⟩ ∧
    ((translate_batch testBackend [reqA, reqBoom, reqC] 10 s0).1)[2]? =
      some ⟨"T:Three", "en", "es", mkRat 75 100, "mbart", MODEL_NAME, false⟩ := by
  have h := translate_batch_isolation testBackend [reqA, reqBoom, reqC] 10 s0
  refine ⟨rfl, by simpa using h.1, ?_, ?_, ?_⟩
  · have := h.2.1 1 reqBoom rfl
    rw [this]
    rfl
  · have := h.2.1 0 reqA rfl
    rw [this]
    rfl
  · have := h.2.1 2 reqC rfl
    rw [this]
    rfl

/-- C4: the batch endpoint processes exactly the first `cap` items — dropping
the excess changes nothing — and returns `min (len requests) cap` results; the
i-th result is derived from the i-th request (it echoes that request's source
and target codes), so output order matches input order. -/
theorem translate_batch_truncation (backend : Backend)
    (reqs : List TranslationRequest) (cap : Nat) (s : ServiceState) :
    ((translate_batch backend reqs cap s).1).length = min reqs.length cap ∧
    translate_batch backend reqs cap s =
      translate_batch backend (reqs.take cap) cap s ∧
    (∀ (i : Nat) (req : TranslationRequest), (reqs.take cap)[i]? = some req →
      ∃ r, ((translate_batch backend reqs cap s).1)[i]? = some r ∧
        r.source_language = req.source_language ∧
        r.target_language = req.target_language) := by
  refine ⟨?_, ?_, ?_⟩
  · simp [translate_batch, batchGo_length, List.length_take, Nat.min_comm]
  · simp [translate_batch, List.take_take]
  · intro i req h
    have hg := batchGo_getElem backend (reqs.take cap) s i req h
    rcases ho : (TranslationService.translate backend req
        ((batchGo backend ((reqs.take cap).take i) s).2)).1 with e | r
    · rw [ho] at hg
      exact ⟨errorPlaceholder req, hg, rfl, rfl⟩
    · rw [ho] at hg
      obtain ⟨h1, h2, _, _⟩ := translate_ok_fields _ _ _ _ ho
      exact ⟨r, hg, h1, h2⟩

/-- Witness for C4: `cap = 2` with five inputs yields exactly the first two
results, in input order. -/
theorem translate_batch_truncation_witness :
    (([reqA, reqC, reqA, reqC, reqA].take 2)[1]? = some reqC) ∧
    ((translate_batch testBackend [reqA, reqC, reqA, reqC, reqA] 2 s0).1).length
      = min 5 2 ∧
    translate_batch testBackend [reqA, reqC, reqA, reqC, reqA] 2 s0 =
      translate_batch testBackend [reqA, reqC] 2 s0 ∧
    (∃ r, ((translate_batch testBackend [reqA, reqC, reqA, reqC, reqA] 2 s0).1)[1]?
        = some r ∧
      r.source_language = reqC.source_language ∧
      r.target_language = reqC.target_language) := by
  have h := translate_batch_truncation testBackend [reqA, reqC, reqA, reqC, reqA] 2 s0
  exact ⟨rfl, by simpa using h.1, h.2.1, h.2.2 1 reqC rfl⟩

/-- C10: every result in a batch output is flagged consistently — a degraded
item carries method `"error"` and the empty model identifier, while every
successful item carries a method other than `"error"` and the full
`MODEL_NAME` — so `model_version = ""` distinguishes degraded results. -/
theorem batch_error_marker (backend : Backend) (reqs : List TranslationRequest)
    (cap : Nat) (s : ServiceState) :
    ∀ r ∈ (translate_batch backend reqs cap s).1,
      (r.translation_method = "error" ∧ r.model_version = "") ∨
      (r.translation_method ≠ "error" ∧ r.model_version = MODEL_NAME) := by
  suffices h : ∀ (l : List TranslationRequest) (st : ServiceState),
      ∀ r ∈ (batchGo backend l st).1,
        (r.translation_method = "error" ∧ r.model_version = "") ∨
        (r.translation_method ≠ "error" ∧ r.model_version = MODEL_NAME) by
    exact h (reqs.take cap) s
  intro l
  induction l with
  | nil =>
      intro st r hr
      simp [batchGo] at hr
  | cons q rest ih =>
      intro st r hr
      simp only [batchGo] at hr
      rcases List.mem_cons.mp hr with hEq | hMem
      · rcases ho : (TranslationService.translate backend q st).1 with e | rr
        · rw [ho] at hEq
          subst hEq
          exact Or.inl ⟨rfl, rfl⟩
        · rw [ho] at hEq
          subst hEq
          obtain ⟨_, _, h3, h4⟩ := translate_ok_fields _ _ _ _ ho
          exact Or.inr ⟨h4, h3⟩
      · exact ih _ r hMem

/-- Witness for C10: the degraded result of a failing batch item is in the
output and carries the empty model identifier. -/
theorem batch_error_marker_witness :
    (⟨"BOOM", "en", "es", 0, "error", "", false⟩ : TranslationResponse) ∈
      (translate_batch testBackend [reqA, reqBoom] 10 s0).1 ∧
    ((("error" : String) = "error" ∧ ("" : String) = "") ∨
      (("error" : String) ≠ "error" ∧ ("" : String) = MODEL_NAME)) :=
  ⟨by decide,
   batch_error_marker testBackend [reqA, reqBoom] 10 s0
     ⟨"BOOM", "en", "es", 0, "error", "", false⟩ (by decide)⟩

set_option maxRecDepth 100000 in
/-- C1 as specified fails on the code: on a repeated identical cacheable
request the stored entry is found, but rebuilding the response with
`TranslationResponse(**cached_result, cached=True)` passes the `cached`
keyword twice — the stored dict already holds `cached: True` — so the second
call raises `TypeError` instead of returning the cached result.  The backend
call count does stay at 1 across the two calls: the crash happens before
inference.  First call: normal translation, one backend call, one cache
write; second call: the duplicate-keyword `TypeError`, still one cumulative
backend call. -/
theorem repeat_request_cache_hit_raises :
    (TranslationService.translate okBackend reqHello s0).1 =
      Except.ok ⟨"Hola", "en", "es", mkRat 75 100, "mbart", MODEL_NAME, false⟩ ∧
    ((TranslationService.translate okBackend reqHello s0).2).backendCalls = 1 ∧
    ((TranslationService.translate okBackend reqHello s0).2).cachePuts = 1 ∧
    (TranslationService.translate okBackend reqHello
        (TranslationService.translate okBackend reqHello s0).2).1 =
      Except.error (TransError.typeError
        "TranslationResponse() got multiple values for keyword argument 'cached'") ∧
    ((TranslationService.translate okBackend reqHello
        (TranslationService.translate okBackend reqHello s0).2).2).backendCalls
      = 1 := by
  refine ⟨rfl, rfl, rfl, ?_, ?_⟩ <;> rfl
